import Mathlib

/-!
Shallow embedding of the blocktank-tightrope rebalancing core
(`src/tightrope.js` — classes `Tightrope` and `Lightning`).

Modelling conventions:
* BigNumber token amounts are embedded as exact rationals (`ℚ`); the
  operations the source uses (`plus`, `minus`, `times`, `min`, comparisons)
  are exact in bignumber.js for rational inputs.  `BigNumber#toFixed(0)`
  uses the library default rounding mode ROUND_HALF_UP (round to nearest,
  ties away from zero) and `BigNumber#isPositive` treats `0` as positive;
  both are modelled faithfully below.  `localBalance.div(capacity)` is
  modelled as exact rational division (the source limits the quotient to
  20 decimal places, far below any threshold granularity used here).
* Times (`Date.now()`, `timestamp`, `until`, periods) are integers (ms).
* Async LN-collaborator calls (`decodePaymentRequest`, `pay`,
  `createInvoice`) are oracles passed as arguments; `none` models the call
  throwing an exception (rejected promise), which the source catches.
* JavaScript truthiness of the optional fields the source tests with
  `if (x)` / `x || null` is modelled explicitly (`0`, `""` are falsy).
-/

namespace Tightrope

/-- BigNumber `toFixed(0)` under the default `ROUNDING_MODE` (4 =
ROUND_HALF_UP): round to the nearest integer, ties away from zero. -/
def roundHalfUp (x : ℚ) : ℤ :=
  if 0 ≤ x then Rat.floor (x + 1/2) else -(Rat.floor (-x + 1/2))

/-- BigNumber `isPositive()`: true when the sign is positive; bignumber.js
gives `new BigNumber(0)` a positive sign, so zero counts as positive. -/
def bnIsPositive (x : ℚ) : Bool := decide (0 ≤ x)

/-- JavaScript `x || null` on an optional string: `""` is falsy. -/
def jsOrNullStr : Option String → Option String
  | some s => if s = "" then none else some s
  | none => none

/-- One entry of the refreshed channel view (`Lightning._refreshChannelList`,
field-for-field from the mapping of `lnService.getChannels`; the status
flags other than `isActive` are carried but never read by the core). -/
structure Channel where
  id : String
  localPublicKey : String
  remotePublicKey : String
  localBalance : ℚ
  remoteBalance : ℚ
  capacity : ℚ
  isActive : Bool
  deriving DecidableEq, Repr

/-- One audit-log transaction (`transactions` collaborator; the fields the
core reads: `paidBy` and `timestamp` for the rolling-limit query, `amount`
for the volume sum, `state` for the lifecycle). -/
structure Tx where
  paidBy : String
  paidTo : String
  channelId : String
  amount : ℚ
  timestamp : Int
  state : String
  deriving DecidableEq, Repr

/-- A per-channel cooldown entry of `Lightning.blockedPending`. -/
structure Block where
  id : String
  untilMs : Int
  deriving DecidableEq, Repr

/-- An entry of `Tightrope.activeConnections` (the socket handle is an
opaque identifier here). -/
structure ActiveConn where
  remotePublicKey : String
  socket : Nat
  deriving DecidableEq, Repr

/-- A Channel Ownership Record: an entry of `Tightrope.channelOwners`. -/
structure Owner where
  channelId : String
  remotePeer : String
  remoteLightning : String
  deriving DecidableEq, Repr

/-- The mutable peer/ownership/watch state of one node: the
`Tightrope` fields `activeConnections` and `channelOwners` together with
the `Lightning` field `watchList` (the `Tightrope` teardown path mutates
all three). -/
structure TightropeState where
  activeConnections : List ActiveConn
  channelOwners : List Owner
  watchList : List String
  deriving DecidableEq, Repr

/-- `Lightning.unwatchChannel`: drop the channel id from the watch list. -/
def unwatchChannel (watchList : List String) (channelId : String) : List String :=
  watchList.filter (fun c => c ≠ channelId)

/-- `Tightrope._removeActiveConnection`: drop the peer from
`activeConnections`, unwatch every channel whose ownership record names
the peer (the source's `forEach` over `channelOwners`), then drop those
ownership records. -/
def removeActiveConnection (s : TightropeState) (remotePublicKey : String) : TightropeState :=
  { activeConnections := s.activeConnections.filter (fun c => c.remotePublicKey ≠ remotePublicKey)
    watchList := s.channelOwners.foldl
      (fun w c => if c.remotePeer = remotePublicKey then unwatchChannel w c.channelId else w)
      s.watchList
    channelOwners := s.channelOwners.filter (fun owner => owner.remotePeer ≠ remotePublicKey) }

/-- `Tightrope._onCloseConnection` (the socket `close` handler): tear the
session down via `_removeActiveConnection`, then log. -/
def onCloseConnection (s : TightropeState) (remotePeer : String) : TightropeState :=
  removeActiveConnection s remotePeer

/-- The socket `error` handler registered in `_onOpenConnection`: it only
logs; the state is untouched. -/
def onSocketError (s : TightropeState) : TightropeState := s

/-- A session ending with a socket error: Node.js always emits `close`
right after `error` on a `net.Socket`, so the error handler (a no-op on
state) is followed by the `close` handler. -/
def sessionEndByError (s : TightropeState) (remotePeer : String) : TightropeState :=
  onCloseConnection (onSocketError s) remotePeer

/-- `Tightrope._addActiveConnection`: first run the full removal for the
key (so a reconnect discards prior ownership and watch state), then push
the new connection. -/
def addActiveConnection (s : TightropeState) (remotePublicKey : String) (socket : Nat) :
    TightropeState :=
  let s' := removeActiveConnection s remotePublicKey
  { s' with activeConnections := s'.activeConnections ++ [⟨remotePublicKey, socket⟩] }

/-- The fields of a `paymentResult` payload read by `confirmPayment`. -/
structure ResultMsg where
  channelId : String
  confirmed : Bool
  retryAt : Option Int
  deriving DecidableEq, Repr

/-- `Lightning.confirmPayment`: unconditionally filter the channel's block
out of `blockedPending`; when the payment failed and the result carries a
truthy `retryAt` (a number is falsy only at `0`), push a new block lasting
until `retryAt`. -/
def confirmPayment (blockedPending : List Block) (result : ResultMsg) : List Block :=
  let b := blockedPending.filter (fun c => c.id ≠ result.channelId)
  if result.confirmed then b
  else
    match result.retryAt with
    | some t => if t ≠ 0 then b ++ [⟨result.channelId, t⟩] else b
    | none => b

/-- Modelled from the spec: the `transactions` collaborator's
`filter({since, paidBy})` (its module `src/transactions.js` is not part of
the provided source).  Per the audit-log contract in the spec it returns
the entries with `paidBy` equal to the given key and `timestamp ≥ since`. -/
def transactionsFilter (log : List Tx) (since : Int) (paidBy : String) : List Tx :=
  log.filter (fun t => decide (t.paidBy = paidBy ∧ since ≤ t.timestamp))

/-- The `reduce` in `_denyPaymentReason`: sum of the recent amounts,
starting from `new BigNumber(0)`. -/
def sumAmounts (recent : List Tx) : ℚ :=
  recent.foldl (fun total t => total + t.amount) 0

/-- The result shape of `Lightning._denyPaymentReason` (and of the
`invalid request` rejections of `_shouldPayInvoice`). -/
structure DenyResult where
  allow : Bool
  reason : Option String
  retryAt : Option Int
  deriving DecidableEq, Repr

/-- `Lightning._denyPaymentReason`: the rolling/fixed-window limits on the
payer.  `period` stands for `timeToMilliseconds(limitsPeriod)`;
`Math.floor(now / period) * period` is floor division toward −∞
(`Int.fdiv`).  The reason strings abbreviate the source's interpolated
templates (the source interpolates the `recent` list itself into the
second one — a formatting slip noted by the spec); no claim reads them. -/
def denyPaymentReason (log : List Tx) (now : Int) (period : Int) (useRollingLimitsPeriod : Bool)
    (selfPublicKey : String) (maxTransactionsPerPeriod : Nat) (maxAmountPerPeriod : ℚ)
    (amount : ℚ) : DenyResult :=
  let since := if useRollingLimitsPeriod then now - period else (Int.fdiv now period) * period
  let recent := transactionsFilter log since selfPublicKey
  if recent.length ≥ maxTransactionsPerPeriod then
    { allow := false
      reason := some (toString recent.length ++ " transactions in last period. Limit is "
        ++ toString maxTransactionsPerPeriod)
      retryAt := some (since + period + 1) }
  else
    let sumOfTransactions := sumAmounts recent
    if sumOfTransactions + amount > maxAmountPerPeriod then
      { allow := false
        reason := some (toString (sumOfTransactions + amount)
          ++ " tokens sent recently. Limit is " ++ toString maxAmountPerPeriod)
        retryAt := some (since + period + 1) }
    else
      { allow := true, reason := none, retryAt := none }

/-- `Lightning._rateLimitRebalance`: clear expired blocks (keep those with
`until > now`), deny when a surviving block matches the channel id, else
push a fresh block with `until = now + minTimeBetweenPayments` and allow.
Returns `(rateLimited, newBlockedPending)`. -/
def rateLimitRebalance (blockedPending : List Block) (now : Int) (channelId : String)
    (timeBetweenPayments : Int) : Bool × List Block :=
  let cleared := blockedPending.filter (fun c => decide (now < c.untilMs))
  match cleared.find? (fun c => c.id == channelId) with
  | some _ => (true, cleared)
  | none => (false, cleared ++ [⟨channelId, now + timeBetweenPayments⟩])

/-- `Lightning._rebalanceChannel`: rate-limit first (the block is pushed
there, before any invoice is created or sent); then create the invoice for
`invoiceAmount.toFixed(0)` tokens and emit `requestRebalance` (which
`Tightrope._onRequestRebalance` turns into the outbound `payInvoice`).
`createdInvoice = none` models `lnService.createInvoice` throwing: the
catch logs and nothing is emitted, but the pushed block remains.  Returns
the new `blockedPending` and, when a rebalance was dispatched, the emitted
`(invoice request, tokens)`. -/
def rebalanceChannel (blockedPending : List Block) (now : Int) (channel : Channel)
    (timeBetweenPayments : Int) (invoiceAmount : ℚ) (createdInvoice : Option String) :
    List Block × Option (String × ℤ) :=
  match rateLimitRebalance blockedPending now channel.id timeBetweenPayments with
  | (true, b) => (b, none)
  | (false, b) =>
    match createdInvoice with
    | none => (b, none)
    | some request => (b, some (request, roundHalfUp invoiceAmount))

/-- `Lightning._onConsiderChannelRebalance`: one watch-list entry of the
poll tick.  Returns `(keepInWatchList, amountPassedToRebalanceChannel)`.
A missing channel is dropped from the watch list; an inactive one is kept
and skipped; an active one below
`rebalanceThreshold = Math.min(1, Math.max(0, balancePoint - deadzone))`
computes `amount = BigNumber.min((local + remote) * balancePoint - local,
maxTransactionSize)` and calls `_rebalanceChannel` when
`amount.isPositive()` (which is true at zero). -/
def considerChannelRebalance (channels : List Channel) (channelId : String)
    (balancePoint deadzone maxTransactionSize : ℚ) : Bool × Option ℚ :=
  match channels.find? (fun c => c.id == channelId) with
  | none => (false, none)
  | some channel =>
    if channel.isActive then
      let localFraction := channel.localBalance / channel.capacity
      let rebalanceThreshold := min 1 (max 0 (balancePoint - deadzone))
      if localFraction < rebalanceThreshold then
        let targetBalance := (channel.localBalance + channel.remoteBalance) * balancePoint
        let invoiceAmount := targetBalance - channel.localBalance
        let amount := min invoiceAmount maxTransactionSize
        if bnIsPositive amount then (true, some amount) else (true, none)
      else (true, none)
    else (true, none)

/-- The integer token count `_rebalanceChannel` puts in the created
invoice (`invoiceAmount.toFixed(0)`) for the amount selected by
`_onConsiderChannelRebalance`, when the dispatch is not rate limited. -/
def rebalanceTokens (channels : List Channel) (channelId : String)
    (balancePoint deadzone maxTransactionSize : ℚ) : Option ℤ :=
  (considerChannelRebalance channels channelId balancePoint deadzone maxTransactionSize).2.map
    roundHalfUp

/-- A `payInvoice` payload (`Tightrope._onRequestRebalance` builds it;
`Lightning._shouldPayInvoice` reads it).  `tokens` is the numeric value the
source compares with `+amount`. -/
structure PayInvoiceMsg where
  invoice : String
  tokens : ℚ
  channelId : String
  paidTo : String
  paidBy : String
  deriving DecidableEq, Repr

/-- The decode of a BOLT-11 request (`lnService.decodePaymentRequest`):
the two fields the acceptance policy reads. -/
structure Decoded where
  tokens : ℚ
  destination : String
  deriving DecidableEq, Repr

/-- The result of `lnService.pay`: the fields `payInvoice` reads. -/
structure LnPayment where
  id : Option String
  is_confirmed : Bool
  confirmed_at : Option String
  deriving DecidableEq, Repr

/-- The value of `Lightning._shouldPayInvoice`: either a result object, or
the bare JavaScript `false` its catch block returns (property access on
`false` yields `undefined`, and spreading `false` contributes nothing). -/
inductive ShouldPay where
  | obj (dr : DenyResult)
  | jsFalse
  deriving DecidableEq, Repr

/-- Whether `shouldPay.allow` is truthy in `payInvoice` (`undefined` for
the bare `false`). -/
def ShouldPay.allowed : ShouldPay → Bool
  | .obj dr => dr.allow
  | .jsFalse => false

/-- The rejection object `{ allow: false, reason: 'invalid request' }`. -/
def invalidRequest : DenyResult := ⟨false, some "invalid request", none⟩

/-- `Lightning._shouldPayInvoice`.  `decode = none` models
`decodePaymentRequest` throwing (the catch returns `false`); `channels` is
the channel view after the `findChannelFromId` refresh; `deny` is
`_denyPaymentReason` applied to `(msg.channelId, msg.tokens)`. -/
def shouldPayInvoice (decode : Option Decoded) (channels : List Channel)
    (deny : String → ℚ → DenyResult) (msg : PayInvoiceMsg) : ShouldPay :=
  match decode with
  | none => .jsFalse
  | some details =>
    if details.tokens ≠ msg.tokens then .obj invalidRequest
    else if details.destination ≠ msg.paidTo then .obj invalidRequest
    else
      match channels.find? (fun c => c.id == msg.channelId) with
      | none => .obj invalidRequest
      | some channelInfo =>
        if channelInfo.remotePublicKey ≠ msg.paidTo then .obj invalidRequest
        else .obj (deny msg.channelId msg.tokens)

/-- The result object of `Lightning.payInvoice` (every field that can be
spread into the outbound `paymentResult`).  `allow = none` / `reason =
none` mean the field is absent from the JavaScript object. -/
structure PayOutcome where
  allow : Option Bool
  reason : Option String
  retryAt : Option Int
  paymentId : Option String
  confirmed : Bool
  confirmedAt : Option String
  deriving DecidableEq, Repr

/-- The `{ reason: 'payment failed', ... }` object `payInvoice` falls
through to when the pay attempt throws or is unconfirmed. -/
def paymentFailed : PayOutcome := ⟨none, some "payment failed", none, none, false, none⟩

/-- `Lightning.payInvoice`.  `payResult = none` models `lnService.pay`
throwing (caught, falling through to `paymentFailed`).  The second
component records whether `lnService.pay` was invoked at all. -/
def payInvoice (decode : Option Decoded) (channels : List Channel)
    (deny : String → ℚ → DenyResult) (payResult : Option LnPayment) (msg : PayInvoiceMsg) :
    PayOutcome × Bool :=
  match shouldPayInvoice decode channels deny msg with
  | .jsFalse =>
    -- `{ ...false, paymentId: null, confirmed: false, confirmedAt: null }`
    (⟨none, none, none, none, false, none⟩, false)
  | .obj dr =>
    if dr.allow = false then
      (⟨some dr.allow, dr.reason, dr.retryAt, none, false, none⟩, false)
    else
      match payResult with
      | none => (paymentFailed, true)
      | some payment =>
        if payment.is_confirmed then
          (⟨some dr.allow, dr.reason, dr.retryAt, jsOrNullStr payment.id,
            payment.is_confirmed, jsOrNullStr payment.confirmed_at⟩, true)
        else (paymentFailed, true)

/-- `Tightrope._onPayInvoice` (responder side): await
`lightning.payInvoice(msg)` and send `{ ...msg, ...result, type:
'paymentResult' }` back.  The audit log is passed through untouched:
no `transactions.add` occurs anywhere on this path (the only `add` calls
in the source are in `_onPaymentResult` and `_onRequestRebalance`, both on
the requester).  Returns `(auditLog, sentPaymentResult, payWasInvoked)`. -/
def onPayInvoiceResponder (decode : Option Decoded) (channels : List Channel)
    (deny : String → ℚ → DenyResult) (payResult : Option LnPayment) (msg : PayInvoiceMsg)
    (auditLog : List Tx) : List Tx × (PayInvoiceMsg × PayOutcome) × Bool :=
  let r := payInvoice decode channels deny payResult msg
  (auditLog, (msg, r.1), r.2)

/-- The wire envelope `{ message, timestamp, signature }`. -/
structure WireMsg (α : Type) where
  message : α
  timestamp : Int
  signature : String

/-- `Tightrope._onMessage`.  `sign` is `signMessage(secret, timestamp,
senderKey, payload)` from `src/util/sign` (not part of the provided
source; the guard only compares its output for equality, so it is kept
abstract).  `typeOf` extracts `message.type`; the three handlers stand for
`_onHello`, `_onPayInvoice` and `_onPaymentResult`.  The returned flag
records whether one of them ran; on a bad signature, a stale timestamp
(`Math.abs(now - timestamp) > 5000`) or an unknown type the message is
dropped: no handler runs, no reply is written and the state — including
the active-sessions table, so the session survives — is unchanged. -/
def onMessage {α St Out : Type} (sign : String → Int → String → α → String)
    (typeOf : α → String) (secret : String) (now : Int)
    (hHello hPayInvoice hPaymentResult : String → α → St → St × List Out)
    (remotePeer : String) (w : WireMsg α) (s : St) : St × List Out × Bool :=
  if sign secret w.timestamp remotePeer w.message ≠ w.signature then (s, [], false)
  else if 5000 < (now - w.timestamp).natAbs then (s, [], false)
  else if typeOf w.message = "hello" then
    let r := hHello remotePeer w.message s
    (r.1, r.2, true)
  else if typeOf w.message = "payInvoice" then
    let r := hPayInvoice remotePeer w.message s
    (r.1, r.2, true)
  else if typeOf w.message = "paymentResult" then
    let r := hPaymentResult remotePeer w.message s
    (r.1, r.2, true)
  else (s, [], false)

/-! Concrete fixtures used by witnesses, counterexamples and failing-input
evaluations. -/

/-- A well-formed `payInvoice` payload: 100 tokens across `chan-1`, to be
paid to `lnX` by `lnY`. -/
def c1msg : PayInvoiceMsg := ⟨"lnbc-req", 100, "chan-1", "lnX", "lnY"⟩

/-- A decode of `c1msg.invoice` that matches it. -/
def c1decoded : Decoded := ⟨100, "lnX"⟩

/-- A channel view holding `chan-1` with remote LN key `lnX`. -/
def c1channels : List Channel := [⟨"chan-1", "lnY", "lnX", 1000, 2000, 4000, true⟩]

/-- A `_denyPaymentReason` stand-in whose limits always pass. -/
def allowAll : String → ℚ → DenyResult := fun _ _ => ⟨true, none, none⟩

/-- A confirmed `lnService.pay` result. -/
def c1pay : LnPayment := ⟨some "pay-1", true, some "time-1"⟩

/-- An active channel with local balance 0, remote 5, capacity 10: the
invoice amount at `balancePoint = 1/2` is the half-integer `5/2`. -/
def c5chA : Channel := ⟨"c5a", "lnY", "lnX", 0, 5, 10, true⟩

/-- An active channel with both balances 0: the invoice amount is 0. -/
def c5chB : Channel := ⟨"c5b", "lnY", "lnX", 0, 0, 10, true⟩

/-- A two-peer state: `peerA` owns watched channel `c1`, `peerB` owns
watched channel `c2`. -/
def s0 : TightropeState :=
  ⟨[⟨"peerA", 1⟩, ⟨"peerB", 2⟩],
   [⟨"c1", "peerA", "lnA"⟩, ⟨"c2", "peerB", "lnB"⟩],
   ["c1", "c2"]⟩

/-- A constant signer for exercising `onMessage` on concrete inputs. -/
def c3sign : String → Int → String → String → String := fun _ _ _ _ => "sig-ok"

/-- A handler that visibly changes state and replies, for exercising
`onMessage`. -/
def c3handler : String → String → Nat → Nat × List Nat := fun _ _ n => (n + 1, [n])

/-! Theorems. -/

/-- `Rat.floor` agrees with the `FloorRing` floor on `ℚ` (the instance is
built from it). -/
theorem ratFloor_eq_floor (q : ℚ) : Rat.floor q = ⌊q⌋ := rfl

/-- C1: on the responder side the code appends no audit entry at all: a
`payInvoice` that passes every check and whose pay attempt is confirmed
(`lnService.pay` was invoked and `is_confirmed` held) leaves the audit log
empty — no `complete` (nor `failed`) entry is recorded, contrary to the
claim.  The only `transactions.add` calls in the source are on the
requester (`_onPaymentResult`, `_onRequestRebalance`). -/
theorem onPayInvoiceResponder_appends_no_audit_entry :
    onPayInvoiceResponder (some c1decoded) c1channels allowAll (some c1pay) c1msg [] =
      ([], (c1msg, ⟨some true, none, none, some "pay-1", true, some "time-1"⟩), true) := by
  decide

/-- C2: with `blockedPending = [(c5a, until 1000)]`, a `paymentResult` for
channel `c5a` with `confirmed = false` and no `retryAt` leaves NO block at
all: `confirmPayment` filters the channel's block out unconditionally and
re-adds one only when `retryAt` is present.  The claim (and the function's
own doc comment, "we leave the block in place") say the original cooldown
should remain. -/
theorem confirmPayment_clears_block_without_retryAt :
    confirmPayment [⟨"c5a", 1000⟩] ⟨"c5a", false, none⟩ = [] := by
  decide

/-- C9 counterexample: when the decode throws (`decode = none`),
`_shouldPayInvoice`'s catch returns the bare `false`, whose spread
contributes nothing, so the reply has `confirmed = false` but NO `reason`
field — in particular its reason is not `"payment failed"` as the claim
states. -/
theorem payInvoice_decode_exception_has_no_reason :
    (payInvoice none c1channels allowAll (some c1pay) c1msg).1.confirmed = false ∧
    (payInvoice none c1channels allowAll (some c1pay) c1msg).1.reason = none ∧
    (payInvoice none c1channels allowAll (some c1pay) c1msg).1.reason ≠ some "payment failed" := by
  decide

/-- C5 counterexample: on channel `c5a` (local 0, remote 5, capacity 10)
with `balancePoint = 1/2`, `deadzone = 0`, `maxTransactionSize = 1000000`,
the amount is `5/2` and the tokens put in the invoice are `3`
(`toFixed(0)` rounds half up), not the claim's rounded-down `2`; and on
channel `c5b` (both balances 0) the amount `0` IS dispatched
(`BigNumber(0).isPositive()` is true) although it is not strictly
positive. -/
theorem considerChannelRebalance_counterexample :
    rebalanceTokens [c5chA] "c5a" (1/2) 0 1000000 = some 3 ∧
    some (Rat.floor ((5 : ℚ)/2)) ≠ some (3 : ℤ) ∧
    (considerChannelRebalance [c5chB] "c5b" (1/2) 0 1000000).2 = some 0 := by
  refine ⟨?_, ?_, ?_⟩
  · unfold rebalanceTokens considerChannelRebalance
    rw [List.find?_cons_of_pos _ (by simp [c5chA])]
    norm_num [c5chA, bnIsPositive, roundHalfUp, ratFloor_eq_floor]
  · rw [ratFloor_eq_floor]
    simp only [ne_eq, Option.some.injEq]
    rw [show ((5:ℚ)/2) = ((5:ℤ):ℚ)/((2:ℕ):ℚ) by norm_num, Rat.floor_intCast_div_natCast]
    decide
  · unfold considerChannelRebalance
    rw [List.find?_cons_of_pos _ (by simp [c5chB])]
    norm_num [c5chB, bnIsPositive]

/-- C3: a `hello` / `payInvoice` / `paymentResult` handler runs (the flag
is `true`) only when the recomputed signature over `(secret, timestamp,
sender key, payload)` equals the received one and `|now − timestamp| ≤
5000` ms; whenever either check fails the message is dropped: the state —
including the active-sessions table, so the session survives — is exactly
the input state, nothing is written back, and no handler runs. -/
theorem onMessage_guard {α St Out : Type} (sign : String → Int → String → α → String)
    (typeOf : α → String) (secret : String) (now : Int)
    (hHello hPayInvoice hPaymentResult : String → α → St → St × List Out)
    (remotePeer : String) (w : WireMsg α) (s : St) :
    ((onMessage sign typeOf secret now hHello hPayInvoice hPaymentResult remotePeer w s).2.2
        = true →
      sign secret w.timestamp remotePeer w.message = w.signature ∧
        (now - w.timestamp).natAbs ≤ 5000) ∧
    (¬(sign secret w.timestamp remotePeer w.message = w.signature ∧
        (now - w.timestamp).natAbs ≤ 5000) →
      onMessage sign typeOf secret now hHello hPayInvoice hPaymentResult remotePeer w s
        = (s, [], false)) := by
  unfold onMessage
  split_ifs with h1 h2 h3 h4 h5 <;> simp_all

/-- C3 witness: a concrete message whose signature does not match the
recomputed one is dropped without touching the state. -/
theorem onMessage_guard_witness :
    onMessage c3sign id "sec" 0 c3handler c3handler c3handler "peer"
      ⟨"hello", 0, "sig-bad"⟩ 5 = (5, [], false) :=
  (onMessage_guard c3sign id "sec" 0 c3handler c3handler c3handler "peer"
    ⟨"hello", 0, "sig-bad"⟩ 5).2 (by decide)

/-- C4: the rolling-limit gate of `_denyPaymentReason` allows a candidate
payment of `amount` exactly when the number of audit entries with `paidBy
= self` and `timestamp ≥ since` is strictly below
`maxTransactionsPerPeriod` and their summed amounts plus the candidate do
not exceed `maxAmountPerPeriod`, where `since = now − period` under
rolling limits and `floor(now / period) · period` otherwise; and every
rejection carries `retryAt = since + period + 1`. -/
theorem denyPaymentReason_characterization (log : List Tx) (now period : Int) (rolling : Bool)
    (selfKey : String) (maxN : Nat) (maxAmt amount : ℚ) :
    ((denyPaymentReason log now period rolling selfKey maxN maxAmt amount).allow = true ↔
      (transactionsFilter log (if rolling then now - period else (Int.fdiv now period) * period)
          selfKey).length < maxN ∧
        sumAmounts (transactionsFilter log
            (if rolling then now - period else (Int.fdiv now period) * period) selfKey)
          + amount ≤ maxAmt) ∧
    ((denyPaymentReason log now period rolling selfKey maxN maxAmt amount).allow = false →
      (denyPaymentReason log now period rolling selfKey maxN maxAmt amount).retryAt =
        some ((if rolling then now - period else (Int.fdiv now period) * period)
          + period + 1)) := by
  simp only [denyPaymentReason]
  generalize (if rolling then now - period else Int.fdiv now period * period) = since
  rcases le_or_lt maxN (transactionsFilter log since selfKey).length with h1 | h1
  · rw [if_pos h1]
    refine ⟨by simp; intro hl; omega, fun _ => rfl⟩
  · rw [if_neg (not_le.mpr h1)]
    rcases le_or_lt (sumAmounts (transactionsFilter log since selfKey) + amount) maxAmt
      with h2 | h2
    · rw [if_neg (not_lt.mpr h2)]
      exact ⟨by simp [h1, h2], fun h => by cases h⟩
    · rw [if_pos h2]
      refine ⟨by simp; intro hl; exact h2, fun _ => rfl⟩

/-- C4 witness: with an empty audit log and limits `maxN = 2`,
`maxAmt = 50`, a candidate payment of 10 is allowed. -/
theorem denyPaymentReason_witness :
    (denyPaymentReason [] 1000 100 true "k" 2 50 10).allow = true :=
  ((denyPaymentReason_characterization [] 1000 100 true "k" 2 50 10).1).mpr
    (by constructor <;> norm_num [transactionsFilter, sumAmounts])

/-- When a non-expired block for the channel exists, `_rateLimitRebalance`
reports the channel as rate limited. -/
theorem rateLimitRebalance_blocked (blockedPending : List Block) (now : Int)
    (channelId : String) (timeBetween : Int)
    (h : ∃ c ∈ blockedPending, c.id = channelId ∧ now < c.untilMs) :
    (rateLimitRebalance blockedPending now channelId timeBetween).1 = true := by
  rcases h with ⟨c, hc, hid, hun⟩
  unfold rateLimitRebalance
  have hmem : c ∈ blockedPending.filter (fun c => decide (now < c.untilMs)) :=
    List.mem_filter.mpr ⟨hc, by simpa using hun⟩
  rcases hfind : (blockedPending.filter (fun c => decide (now < c.untilMs))).find?
      (fun c => c.id == channelId) with _ | b
  · exact absurd (by simpa using hid) (by simpa using List.find?_eq_none.mp hfind c hmem)
  · simp [hfind]

/-- When `_rateLimitRebalance` allows the dispatch, the fresh block
`(channelId, now + timeBetween)` is in the returned block list. -/
theorem rateLimitRebalance_inserts (blockedPending : List Block) (now : Int)
    (channelId : String) (timeBetween : Int)
    (h : (rateLimitRebalance blockedPending now channelId timeBetween).1 = false) :
    (⟨channelId, now + timeBetween⟩ : Block) ∈
      (rateLimitRebalance blockedPending now channelId timeBetween).2 := by
  simp only [rateLimitRebalance] at h ⊢
  rcases hfind : (blockedPending.filter (fun c => decide (now < c.untilMs))).find?
      (fun c => c.id == channelId) with _ | b
  · simp [hfind]
  · rw [hfind] at h
    simp at h

/-- C6: while a Rebalance Block with `until > now` exists for the channel,
`_rebalanceChannel` dispatches nothing (no `requestRebalance` is emitted,
so no `payInvoice` is sent); and whenever it does dispatch, the block list
it holds — written in `_rateLimitRebalance` before `createInvoice` and the
emit — already contains `(channel.id, now + minTimeBetweenPayments)`. -/
theorem rebalanceChannel_cooldown (blockedPending : List Block) (now : Int) (channel : Channel)
    (timeBetween : Int) (invoiceAmount : ℚ) (createdInvoice : Option String) :
    ((∃ c ∈ blockedPending, c.id = channel.id ∧ now < c.untilMs) →
      (rebalanceChannel blockedPending now channel timeBetween invoiceAmount
        createdInvoice).2 = none) ∧
    ((rebalanceChannel blockedPending now channel timeBetween invoiceAmount
        createdInvoice).2.isSome = true →
      (⟨channel.id, now + timeBetween⟩ : Block) ∈
        (rebalanceChannel blockedPending now channel timeBetween invoiceAmount
          createdInvoice).1) := by
  constructor
  · intro h
    have hb := rateLimitRebalance_blocked blockedPending now channel.id timeBetween h
    unfold rebalanceChannel
    rcases hrl : rateLimitRebalance blockedPending now channel.id timeBetween with ⟨limited, b⟩
    rw [hrl] at hb
    simp at hb
    subst hb
    rfl
  · intro h
    unfold rebalanceChannel at h ⊢
    rcases hrl : rateLimitRebalance blockedPending now channel.id timeBetween with ⟨limited, b⟩
    rw [hrl] at h
    cases limited
    · have hins := rateLimitRebalance_inserts blockedPending now channel.id timeBetween
        (by rw [hrl])
      rw [hrl] at hins
      cases createdInvoice <;> simpa using hins
    · simp at h

/-- C6 witness: with a live block on `c5a` until time 100, no dispatch
happens at time 50. -/
theorem rebalanceChannel_cooldown_witness :
    (rebalanceChannel [⟨"c5a", 100⟩] 50 c5chA 600000 (5/2) (some "inv-1")).2 = none :=
  (rebalanceChannel_cooldown [⟨"c5a", 100⟩] 50 c5chA 600000 (5/2) (some "inv-1")).1
    ⟨⟨"c5a", 100⟩, by decide, rfl, by decide⟩

/-- Anything left in the watch list after the teardown `forEach` was
already watched, and is the channel of no owner record naming the removed
peer. -/
theorem mem_foldl_unwatch (k : String) (owners : List Owner) (w : List String) (y : String)
    (hy : y ∈ owners.foldl
      (fun acc o => if o.remotePeer = k then unwatchChannel acc o.channelId else acc) w) :
    y ∈ w ∧ ∀ o ∈ owners, o.remotePeer = k → o.channelId ≠ y := by
  induction owners generalizing w with
  | nil => simpa using hy
  | cons o os ih =>
    simp only [List.foldl_cons] at hy
    rcases ih _ hy with ⟨h1, h2⟩
    by_cases hk : o.remotePeer = k
    · rw [if_pos hk] at h1
      simp only [unwatchChannel, List.mem_filter, decide_eq_true_eq] at h1
      refine ⟨h1.1, ?_⟩
      intro o' ho' hpeer
      rcases List.mem_cons.mp ho' with rfl | ho'
      · exact fun heq => h1.2 heq.symm
      · exact h2 o' ho' hpeer
    · rw [if_neg hk] at h1
      refine ⟨h1, ?_⟩
      intro o' ho' hpeer
      rcases List.mem_cons.mp ho' with rfl | ho'
      · exact absurd hpeer hk
      · exact h2 o' ho' hpeer

/-- C7: after the `close` handler for a peer — and a session that ends
with a socket `error` behaves identically, since Node.js emits `close`
right after `error` and the error handler itself only logs — the peer is
absent from the active-sessions table, no Channel Ownership Record names
it, and the channel of every ownership record that named it is gone from
the Watch List (ownership records are unique per channel, so those are
exactly the channels watched solely on the peer's behalf). -/
theorem teardown_clears_peer_state (s : TightropeState) (k : String) :
    (∀ c ∈ (onCloseConnection s k).activeConnections, c.remotePublicKey ≠ k) ∧
    (∀ o ∈ (onCloseConnection s k).channelOwners, o.remotePeer ≠ k) ∧
    (∀ o ∈ s.channelOwners, o.remotePeer = k →
      o.channelId ∉ (onCloseConnection s k).watchList) ∧
    sessionEndByError s k = onCloseConnection s k := by
  refine ⟨?_, ?_, ?_, rfl⟩
  · intro c hc
    simp only [onCloseConnection, removeActiveConnection, List.mem_filter,
      decide_eq_true_eq] at hc
    exact hc.2
  · intro o ho
    simp only [onCloseConnection, removeActiveConnection, List.mem_filter,
      decide_eq_true_eq] at ho
    exact ho.2
  · intro o ho hpeer hin
    simp only [onCloseConnection, removeActiveConnection] at hin
    exact (mem_foldl_unwatch k s.channelOwners s.watchList o.channelId hin).2 o ho hpeer rfl

/-- C7 witness: closing `peerA`'s session in the concrete state `s0`
removes its watched channel `c1` from the Watch List. -/
theorem teardown_clears_peer_state_witness :
    "c1" ∉ (onCloseConnection s0 "peerA").watchList :=
  (teardown_clears_peer_state s0 "peerA").2.2.1 ⟨"c1", "peerA", "lnA"⟩ (by decide) rfl

/-- C10: registering a session for a mesh key that may already have one
(`_addActiveConnection`) first runs the complete teardown for that key:
afterwards no Channel Ownership Record names the peer, every channel whose
ownership record named it has been unwatched, and the connection table is
the old one minus that key plus exactly the new socket. -/
theorem addActiveConnection_resets_peer_state (s : TightropeState) (k : String) (sock : Nat) :
    (∀ o ∈ (addActiveConnection s k sock).channelOwners, o.remotePeer ≠ k) ∧
    (∀ o ∈ s.channelOwners, o.remotePeer = k →
      o.channelId ∉ (addActiveConnection s k sock).watchList) ∧
    (addActiveConnection s k sock).activeConnections =
      s.activeConnections.filter (fun c => c.remotePublicKey ≠ k) ++ [⟨k, sock⟩] := by
  refine ⟨?_, ?_, rfl⟩
  · intro o ho
    simp only [addActiveConnection, removeActiveConnection, List.mem_filter,
      decide_eq_true_eq] at ho
    exact ho.2
  · intro o ho hpeer hin
    simp only [addActiveConnection, removeActiveConnection] at hin
    exact (mem_foldl_unwatch k s.channelOwners s.watchList o.channelId hin).2 o ho hpeer rfl

/-- C10 witness: reconnecting `peerA` in the concrete state `s0` drops its
watched channel `c1` even though the peer is connected again. -/
theorem addActiveConnection_resets_peer_state_witness :
    "c1" ∉ (addActiveConnection s0 "peerA" 9).watchList :=
  (addActiveConnection_resets_peer_state s0 "peerA" 9).2.1 ⟨"c1", "peerA", "lnA"⟩ (by decide) rfl

/-- C8: whenever the decoded token amount differs from `msg.tokens`, or
the decoded destination differs from `msg.paidTo`, or `msg.channelId` is
absent from the freshly refreshed channel view, or that channel's
`remotePublicKey` differs from `msg.paidTo`, the responder's result — and
hence the `paymentResult` reply that spreads it — has `confirmed = false`
and `reason = "invalid request"`, and `lnService.pay` is never invoked. -/
theorem payInvoice_invalid_request (decode : Option Decoded) (channels : List Channel)
    (deny : String → ℚ → DenyResult) (payResult : Option LnPayment) (msg : PayInvoiceMsg)
    (details : Decoded) (hdec : decode = some details)
    (hbad : details.tokens ≠ msg.tokens ∨ details.destination ≠ msg.paidTo ∨
      channels.find? (fun c => c.id == msg.channelId) = none ∨
      ∃ channelInfo, channels.find? (fun c => c.id == msg.channelId) = some channelInfo ∧
        channelInfo.remotePublicKey ≠ msg.paidTo) :
    payInvoice decode channels deny payResult msg =
      (⟨some false, some "invalid request", none, none, false, none⟩, false) := by
  subst hdec
  have hsp : shouldPayInvoice (some details) channels deny msg = .obj invalidRequest := by
    simp only [shouldPayInvoice]
    by_cases h1 : details.tokens ≠ msg.tokens
    · rw [if_pos h1]
    · rw [if_neg h1]
      by_cases h2 : details.destination ≠ msg.paidTo
      · rw [if_pos h2]
      · rw [if_neg h2]
        rcases h3 : channels.find? (fun c => c.id == msg.channelId) with _ | channelInfo
        · rw [h3]
        · by_cases h4 : channelInfo.remotePublicKey ≠ msg.paidTo
          · simp only [h3]
            rw [if_pos h4]
          · exfalso
            rcases hbad with hb | hb | hb | ⟨ci, hci, hb⟩
            · exact h1 hb
            · exact h2 hb
            · rw [h3] at hb
              cases hb
            · rw [h3] at hci
              cases hci
              exact h4 hb
  simp only [payInvoice, hsp]
  simp [invalidRequest]

/-- C8 witness: a decode whose token amount (999) differs from the
message's (100) yields the `invalid request` reply with no pay attempt. -/
theorem payInvoice_invalid_request_witness :
    payInvoice (some ⟨999, "lnX"⟩) c1channels allowAll (some c1pay) c1msg =
      (⟨some false, some "invalid request", none, none, false, none⟩, false) :=
  payInvoice_invalid_request (some ⟨999, "lnX"⟩) c1channels allowAll (some c1pay) c1msg
    ⟨999, "lnX"⟩ rfl (Or.inl (by decide))

/-- C9 (amended): an exception while executing the payment — after the
acceptance checks allowed it — yields the `payment failed` reply with
`confirmed = false`; but an exception while decoding the invoice makes
`_shouldPayInvoice`'s catch return the bare `false`, and the reply then has
`confirmed = false` with NO `reason` field at all. -/
theorem payInvoice_exception_replies (decode : Option Decoded) (channels : List Channel)
    (deny : String → ℚ → DenyResult) (msg : PayInvoiceMsg) :
    payInvoice none channels deny none msg = (⟨none, none, none, none, false, none⟩, false) ∧
    ((shouldPayInvoice decode channels deny msg).allowed = true →
      payInvoice decode channels deny none msg = (paymentFailed, true)) := by
  constructor
  · rfl
  · intro h
    rcases hsp : shouldPayInvoice decode channels deny msg with dr | _
    · rw [hsp] at h
      simp only [ShouldPay.allowed] at h
      simp only [payInvoice, hsp]
      rw [if_neg (by simp [h])]
    · rw [hsp] at h
      simp [ShouldPay.allowed] at h

/-- C9 witness: with a valid decode, passing checks, and a throwing
`lnService.pay`, the reply is `payment failed` and unconfirmed. -/
theorem payInvoice_exception_replies_witness :
    payInvoice (some c1decoded) c1channels allowAll none c1msg = (paymentFailed, true) :=
  (payInvoice_exception_replies (some c1decoded) c1channels allowAll c1msg).2 (by decide)

/-- C5 (amended): for a watched channel that is active and out of balance
(`localBalance / capacity` below `clamp(balancePoint − deadzone, 0, 1)`),
the amount handed to `_rebalanceChannel` is
`min((localBalance + remoteBalance) · balancePoint − localBalance,
maxTransactionSize)` and the invoice token count is that amount rounded to
the NEAREST integer (ties away from zero, `toFixed(0)`'s default), not
down; and no rebalance is dispatched only when the amount is negative — a
zero amount is dispatched, since `BigNumber(0).isPositive()` holds. -/
theorem considerChannelRebalance_amount (channels : List Channel) (channelId : String)
    (balancePoint deadzone maxTransactionSize : ℚ) (channel : Channel)
    (hfind : channels.find? (fun c => c.id == channelId) = some channel)
    (hact : channel.isActive = true)
    (hout : channel.localBalance / channel.capacity <
      min 1 (max 0 (balancePoint - deadzone))) :
    (0 ≤ min ((channel.localBalance + channel.remoteBalance) * balancePoint
          - channel.localBalance) maxTransactionSize →
      rebalanceTokens channels channelId balancePoint deadzone maxTransactionSize =
        some (roundHalfUp (min ((channel.localBalance + channel.remoteBalance) * balancePoint
          - channel.localBalance) maxTransactionSize))) ∧
    (min ((channel.localBalance + channel.remoteBalance) * balancePoint
          - channel.localBalance) maxTransactionSize < 0 →
      (considerChannelRebalance channels channelId balancePoint deadzone
        maxTransactionSize).2 = none) := by
  constructor
  · intro hpos
    unfold rebalanceTokens considerChannelRebalance
    rw [hfind]
    simp only [hact, if_true, if_pos hout]
    rw [if_pos (by simpa [bnIsPositive] using hpos)]
    rfl
  · intro hneg
    unfold considerChannelRebalance
    rw [hfind]
    simp only [hact, if_true, if_pos hout]
    rw [if_neg (by simp only [bnIsPositive, decide_eq_true_eq, not_le]; exact hneg)]

/-- C5 amended-theorem witness: on the concrete channel `c5a` the
hypotheses hold and the dispatched token count is the half-up rounding of
the computed amount. -/
theorem considerChannelRebalance_amount_witness :
    rebalanceTokens [c5chA] "c5a" (1/2) 0 1000000 =
      some (roundHalfUp (min ((c5chA.localBalance + c5chA.remoteBalance) * (1/2)
        - c5chA.localBalance) 1000000)) :=
  (considerChannelRebalance_amount [c5chA] "c5a" (1/2) 0 1000000 c5chA (by decide) rfl
    (by norm_num [c5chA])).1 (by norm_num [c5chA])

end Tightrope
